import Mathlib

/-!
Verification of the network-connection state reconciler of
`system/ui/lib/wifi_manager.py` (WifiManager), as exercised by
`system/ui/lib/tests/test_handle_state_change.py`.

The implementation file `wifi_manager.py` is not part of the provided
sources; only its test suite is. Every definition below whose doc comment
starts with `Modelled from the spec:` is therefore a shallow embedding
built from the specification (spec.md §3, §4.1-§4.4) and cross-checked
against the expectations of the test suite.

NetworkManager device-state and reason codes arrive over DBus as plain
unsigned integers, so they are modelled as `Nat` here: the handler must be
total over arbitrary codes, including malformed ones.
-/

/-! NetworkManager device-state codes (`NMDeviceState` in
`networkmanager.py`), as the integers delivered over DBus. -/
namespace NMDeviceState

abbrev UNKNOWN : Nat := 0
abbrev DISCONNECTED : Nat := 30
abbrev PREPARE : Nat := 40
abbrev CONFIG : Nat := 50
abbrev NEED_AUTH : Nat := 60
abbrev IP_CONFIG : Nat := 70
abbrev IP_CHECK : Nat := 80
abbrev SECONDARIES : Nat := 90
abbrev ACTIVATED : Nat := 100
abbrev DEACTIVATING : Nat := 110
abbrev FAILED : Nat := 120

end NMDeviceState

/-! NetworkManager device-state-reason codes (`NMDeviceStateReason` in
`networkmanager.py`), as the integers delivered over DBus. -/
namespace NMDeviceStateReason

abbrev NONE : Nat := 0
abbrev UNKNOWN : Nat := 1
abbrev NO_SECRETS : Nat := 7
abbrev SUPPLICANT_DISCONNECT : Nat := 8
abbrev CONNECTION_REMOVED : Nat := 38
abbrev USER_REQUESTED : Nat := 39
abbrev SSID_NOT_FOUND : Nat := 53
abbrev NEW_ACTIVATION : Nat := 60

end NMDeviceStateReason

/-- The three externally observable connection phases (`ConnectStatus`). -/
inductive ConnectStatus where
  | DISCONNECTED
  | CONNECTING
  | CONNECTED
deriving DecidableEq, Repr

/-- The externally visible snapshot `WifiState = {ssid, status}`
(spec.md §3); the default value is the disconnected snapshot. -/
structure WifiState where
  ssid : Option String := none
  status : ConnectStatus := ConnectStatus.DISCONNECTED
deriving DecidableEq, Repr

/-- Kind tag of a callback-queue entry (spec.md §3: NEED_AUTH | ACTIVATED). -/
inductive CallbackKind where
  | NEED_AUTH
  | ACTIVATED
deriving DecidableEq, Repr

/-- A callback-queue entry `{kind, ssid}` (spec.md §3). The ssid is kept
optional because an ACTIVATED entry can be enqueued before the network
identity has been resolved. -/
structure CallbackEntry where
  kind : CallbackKind
  ssid : Option String
deriving DecidableEq, Repr

/-- Modelled from the spec: the portion of the `WifiManager` object that the
reconciler touches (spec.md §2): the Wifi State snapshot, the user epoch
counter, the known-connections table (ssid → connection path), and the
callback queue. The counters `lookup_calls` and `persist_calls` record, as
observable effects, how many times the disambiguation lookup
(`_get_active_wifi_connection`) and the persistence collaborator
(`persist_non_volatile`) have been invoked. -/
structure WifiManager where
  wifi_state : WifiState := {}
  user_epoch : Nat := 0
  connections : List (String × String) := []
  callback_queue : List CallbackEntry := []
  lookup_calls : Nat := 0
  persist_calls : Nat := 0
deriving DecidableEq, Repr

/-- Modelled from the spec: `_set_connecting(ssid)` (spec.md §4.2) sets
Wifi State to `{ssid, CONNECTING}` and increments the epoch counter in the
same critical section. -/
def set_connecting (wm : WifiManager) (ssid : String) : WifiManager :=
  { wm with
    wifi_state := { ssid := some ssid, status := ConnectStatus.CONNECTING }
    user_epoch := wm.user_epoch + 1 }

/-- Clearing the snapshot: `{ssid := none, status := DISCONNECTED}`. -/
def clear_state (wm : WifiManager) : WifiManager :=
  { wm with wifi_state := { ssid := none, status := ConnectStatus.DISCONNECTED } }

/-- Reverse lookup in the known-connections table: the ssid whose stored
connection path equals `path`, if any. -/
def find_ssid_for_path (conns : List (String × String)) (path : String) :
    Option String :=
  (conns.find? (fun kv => kv.2 == path)).map Prod.fst

/-- Whether the current ssid is still a key of the known-connections table
(spec.md §3: membership distinguishes a live/saved target from a forgotten
one). A `none` ssid is never a key. -/
def ssid_still_known (wm : WifiManager) : Bool :=
  match wm.wifi_state.ssid with
  | some s => wm.connections.any (fun kv => kv.1 == s)
  | none => false

/-- Modelled from the spec: one disambiguation-lookup interaction with the
Remote Client (spec.md §4.1, §5). `result` is the connection path the
service reports as active (`none` when there is none), and `interleaved`
is the sequence of user `set_connecting` calls that land on the consumer
thread while the blocking remote call is in flight — the handler's state
at result-application time is the fold of those calls. -/
structure Lookup where
  interleaved : List String := []
  result : Option String := none
deriving DecidableEq, Repr

/-- Running a lookup: apply the interleaved user actions, count the remote
call, and hand back the reported connection path. -/
def run_lookup (wm : WifiManager) (L : Lookup) : WifiManager × Option String :=
  let wmL := L.interleaved.foldl set_connecting wm
  ({ wmL with lookup_calls := wmL.lookup_calls + 1 }, L.result)

/-- Modelled from the spec: the PREPARE/CONFIG branch of
`_handle_state_change` (spec.md §4.1). If the ssid is already set by user
intent the branch is a no-op and must not issue a lookup; otherwise it
captures the epoch, issues the lookup, and — unless the epoch moved —
resolves the ssid from the returned path and sets status CONNECTING. -/
def handle_prepare_config (L : Lookup) (wm : WifiManager) : WifiManager :=
  if wm.wifi_state.ssid.isSome then wm
  else
    let epoch := wm.user_epoch
    let (wm2, path) := run_lookup wm L
    if wm2.user_epoch ≠ epoch then wm2
    else
      { wm2 with
        wifi_state :=
          { ssid := path.bind (find_ssid_for_path wm2.connections)
            status := ConnectStatus.CONNECTING } }

/-- Modelled from the spec: the ACTIVATED branch of `_handle_state_change`
(spec.md §4.1). It always issues the epoch-tagged lookup; on a non-discarded
completion it resolves the ssid if unset, sets status CONNECTED, invokes the
persistence collaborator once, and enqueues one ACTIVATED callback. On an
epoch mismatch the result is discarded entirely. -/
def handle_activated (L : Lookup) (wm : WifiManager) : WifiManager :=
  let epoch := wm.user_epoch
  let (wm2, path) := run_lookup wm L
  if wm2.user_epoch ≠ epoch then wm2
  else
    let ssid :=
      match wm2.wifi_state.ssid with
      | some s => some s
      | none => path.bind (find_ssid_for_path wm2.connections)
    { wm2 with
      wifi_state := { ssid := ssid, status := ConnectStatus.CONNECTED }
      persist_calls := wm2.persist_calls + 1
      callback_queue :=
        wm2.callback_queue ++ [{ kind := CallbackKind.ACTIVATED, ssid := ssid }] }

/-- Modelled from the spec: the DISCONNECTED branch of
`_handle_state_change` (spec.md §4.1 decision table). -/
def handle_disconnected (wm : WifiManager) (reason : Nat) : WifiManager :=
  if reason = NMDeviceStateReason.NEW_ACTIVATION then wm
  else if reason = NMDeviceStateReason.CONNECTION_REMOVED then
    if ssid_still_known wm then wm else clear_state wm
  else clear_state wm

/-- Modelled from the spec: the DEACTIVATING branch of
`_handle_state_change` (spec.md §4.1 decision table). -/
def handle_deactivating (wm : WifiManager) (reason : Nat) : WifiManager :=
  if reason = NMDeviceStateReason.CONNECTION_REMOVED ∧
      wm.wifi_state.status = ConnectStatus.CONNECTED then
    clear_state wm
  else wm

/-- Modelled from the spec: the NEED_AUTH branch of `_handle_state_change`
(spec.md §4.1). Only `previous_state = CONFIG` with
`reason = SUPPLICANT_DISCONNECT` and a non-null ssid is a real wrong
password: clear status to DISCONNECTED, enqueue the NEED_AUTH callback with
the ssid, then clear the ssid. Everything else — in particular
`previous_state = DISCONNECTED` stale signals — is a no-op. -/
def handle_need_auth (wm : WifiManager) (prev reason : Nat) : WifiManager :=
  if prev = NMDeviceState.CONFIG ∧
      reason = NMDeviceStateReason.SUPPLICANT_DISCONNECT then
    match wm.wifi_state.ssid with
    | some s =>
      { wm with
        wifi_state := { ssid := none, status := ConnectStatus.DISCONNECTED }
        callback_queue :=
          wm.callback_queue ++ [{ kind := CallbackKind.NEED_AUTH, ssid := some s }] }
    | none => wm
  else wm

/-- Modelled from the spec: the FAILED branch of `_handle_state_change`
(spec.md §4.1). Only `reason = NO_SECRETS` with a non-null ssid clears state
and enqueues a NEED_AUTH callback; the ssid check is the duplicate-fire
suppression (a preceding NEED_AUTH in the same burst already cleared it).
All other reasons — including SSID_NOT_FOUND — are no-ops. -/
def handle_failed (wm : WifiManager) (reason : Nat) : WifiManager :=
  if reason = NMDeviceStateReason.NO_SECRETS then
    match wm.wifi_state.ssid with
    | some s =>
      { wm with
        wifi_state := { ssid := none, status := ConnectStatus.DISCONNECTED }
        callback_queue :=
          wm.callback_queue ++ [{ kind := CallbackKind.NEED_AUTH, ssid := some s }] }
    | none => wm
  else wm

/-- Modelled from the spec: `_handle_state_change(new_state, previous_state,
reason)` (spec.md §4.1), total over arbitrary integer codes: any state code
outside the enumeration falls through to a no-op, as do the pass-through
phases IP_CONFIG, IP_CHECK and SECONDARIES. `L` describes the single
disambiguation lookup the call may issue. -/
def handle_state_change (L : Lookup) (wm : WifiManager)
    (new_state prev_state reason : Nat) : WifiManager :=
  if new_state = NMDeviceState.DISCONNECTED then handle_disconnected wm reason
  else if new_state = NMDeviceState.PREPARE ∨ new_state = NMDeviceState.CONFIG then
    handle_prepare_config L wm
  else if new_state = NMDeviceState.NEED_AUTH then handle_need_auth wm prev_state reason
  else if new_state = NMDeviceState.ACTIVATED then handle_activated L wm
  else if new_state = NMDeviceState.DEACTIVATING then handle_deactivating wm reason
  else if new_state = NMDeviceState.FAILED then handle_failed wm reason
  else wm

/-- Collapse of a raw device-state code into the three-valued
`ConnectStatus`, used when re-reading ground truth (spec.md §3:
"all of the service's many intermediate phases collapse into these
three"). -/
def status_from_device_state (ds : Nat) : ConnectStatus :=
  if ds = NMDeviceState.ACTIVATED then ConnectStatus.CONNECTED
  else if ds = NMDeviceState.PREPARE ∨ ds = NMDeviceState.CONFIG ∨
      ds = NMDeviceState.NEED_AUTH ∨ ds = NMDeviceState.IP_CONFIG ∨
      ds = NMDeviceState.IP_CHECK ∨ ds = NMDeviceState.SECONDARIES then
    ConnectStatus.CONNECTING
  else ConnectStatus.DISCONNECTED

/-- Modelled from the spec: one ground-truth re-read (spec.md §4.4). The
re-sync performs two remote calls — the device-state property read (during
which `state_interleaved` user actions may land, and which reports
`device_state`) and the active-connection lookup `lookup`. -/
structure Resync where
  state_interleaved : List String := []
  device_state : Nat := NMDeviceState.UNKNOWN
  lookup : Lookup := {}
deriving DecidableEq, Repr

/-- Modelled from the spec: `_init_wifi_state` (spec.md §4.4) — re-read the
device's current state and the active connection's identity via the Remote
Client and overwrite Wifi State with whatever is discovered. The re-sync is
itself subject to the epoch protocol: a user action landing while its
remote calls are in flight makes it discard its result. -/
def init_wifi_state (R : Resync) (wm : WifiManager) : WifiManager :=
  let epoch := wm.user_epoch
  let wm1 := R.state_interleaved.foldl set_connecting wm
  let (wm2, path) := run_lookup wm1 R.lookup
  if wm2.user_epoch ≠ epoch then wm2
  else
    { wm2 with
      wifi_state :=
        { ssid := path.bind (find_ssid_for_path wm2.connections)
          status := status_from_device_state R.device_state } }

/-- Modelled from the spec: `activate_connection(ssid)` (spec.md §4.4, §6).
The user intent is recorded, the activation request is sent to the remote
service, and if the reply is a transport-level error — after which no
compensating state-change signal will ever arrive — the operation recovers
by re-reading ground truth via `_init_wifi_state`. -/
def activate_connection (reply_is_error : Bool) (R : Resync)
    (ssid : String) (wm : WifiManager) : WifiManager :=
  let wm1 := set_connecting wm ssid
  if reply_is_error then init_wifi_state R wm1 else wm1

/-- Modelled from the spec: `connect_to_network(ssid, password)` (spec.md
§4.4, §6) — same error-recovery contract as `activate_connection`; the
password plays no role in the recovery path. -/
def connect_to_network (reply_is_error : Bool) (R : Resync)
    (ssid _password : String) (wm : WifiManager) : WifiManager :=
  let wm1 := set_connecting wm ssid
  if reply_is_error then init_wifi_state R wm1 else wm1

example :
    (handle_state_change {} { wifi_state := { ssid := some "Net", status := ConnectStatus.CONNECTED } }
      NMDeviceState.DISCONNECTED NMDeviceState.UNKNOWN NMDeviceStateReason.UNKNOWN).wifi_state =
    { ssid := none, status := ConnectStatus.DISCONNECTED } := by decide

example :
    (handle_state_change { result := some "/path/auto" }
      { connections := [("AutoNet", "/path/auto")] }
      NMDeviceState.PREPARE NMDeviceState.UNKNOWN NMDeviceStateReason.NONE).wifi_state =
    { ssid := some "AutoNet", status := ConnectStatus.CONNECTING } := by decide

/-! ### Helper lemmas about interleaved user actions -/

/-- Folding any sequence of `set_connecting` calls adds its length to the
epoch counter. -/
theorem foldl_set_connecting_epoch (l : List String) (wm : WifiManager) :
    (l.foldl set_connecting wm).user_epoch = wm.user_epoch + l.length := by
  induction l generalizing wm with
  | nil => simp
  | cons s t ih =>
    simp [List.foldl_cons, ih, set_connecting]
    omega

/-- After a nonempty sequence of `set_connecting` calls ending in `s`, the
Wifi State snapshot is exactly what the last call wrote. -/
theorem foldl_set_connecting_last (l : List String) (s : String) (wm : WifiManager) :
    ((l ++ [s]).foldl set_connecting wm).wifi_state =
      { ssid := some s, status := ConnectStatus.CONNECTING } := by
  rw [List.foldl_append]
  rfl

/-- `set_connecting` folds leave the known-connections table untouched. -/
theorem foldl_set_connecting_connections (l : List String) (wm : WifiManager) :
    (l.foldl set_connecting wm).connections = wm.connections := by
  induction l generalizing wm with
  | nil => rfl
  | cons s t ih => simp [List.foldl_cons, ih, set_connecting]

/-! ### Claim theorems -/

/-- C3: on `DISCONNECTED` with reason `CONNECTION_REMOVED`, the state is left
unchanged exactly when the current ssid is still a key of the
known-connections table, and cleared to `{ssid := none, status :=
DISCONNECTED}` otherwise (including when the ssid is already `none`); in
particular with known-connections containing "B" and state
`{ssid := "B", status := CONNECTING}` the state is unchanged. -/
theorem disconnected_connection_removed_rule :
    (∀ (L : Lookup) (wm : WifiManager) (prev : Nat),
      handle_state_change L wm NMDeviceState.DISCONNECTED prev
          NMDeviceStateReason.CONNECTION_REMOVED =
        if ssid_still_known wm then wm else clear_state wm) ∧
    (handle_state_change {}
        { wifi_state := { ssid := some "B", status := ConnectStatus.CONNECTING }
          connections := [("B", "/path/B")] }
        NMDeviceState.DISCONNECTED NMDeviceState.DEACTIVATING
        NMDeviceStateReason.CONNECTION_REMOVED).wifi_state =
      { ssid := some "B", status := ConnectStatus.CONNECTING } := by
  constructor
  · intro L wm prev
    simp [handle_state_change, handle_disconnected]
  · decide

/-- C4: on `PREPARE` or `CONFIG` with the ssid already set by user intent,
the handler is a complete no-op: the returned manager equals the input one,
so in particular no field of Wifi State changes and the disambiguation
lookup counter is not incremented (no remote get-active-connection call is
made). -/
theorem prepare_config_user_intent_noop :
    ∀ (L : Lookup) (wm : WifiManager) (prev reason : Nat) (s : String),
      wm.wifi_state.ssid = some s →
      handle_state_change L wm NMDeviceState.PREPARE prev reason = wm ∧
      handle_state_change L wm NMDeviceState.CONFIG prev reason = wm := by
  intro L wm prev reason s h
  constructor <;> simp [handle_state_change, handle_prepare_config, h]

/-- Witness for C4 at a concrete manager connecting to "B". -/
theorem prepare_config_user_intent_noop_witness :
    handle_state_change { result := some "/path/A" }
        { wifi_state := { ssid := some "B", status := ConnectStatus.CONNECTING }
          connections := [("A", "/path/A"), ("B", "/path/B")] }
        NMDeviceState.PREPARE NMDeviceState.UNKNOWN NMDeviceStateReason.NONE =
      { wifi_state := { ssid := some "B", status := ConnectStatus.CONNECTING }
        connections := [("A", "/path/A"), ("B", "/path/B")] } :=
  (prepare_config_user_intent_noop { result := some "/path/A" }
    { wifi_state := { ssid := some "B", status := ConnectStatus.CONNECTING }
      connections := [("A", "/path/A"), ("B", "/path/B")] }
    NMDeviceState.UNKNOWN NMDeviceStateReason.NONE "B" rfl).1

/-- C6: on `DEACTIVATING` with reason `CONNECTION_REMOVED` the state is
cleared when the current status is CONNECTED and left unchanged when it is
CONNECTING; for every other reason the signal is a no-op. -/
theorem deactivating_rule :
    ∀ (L : Lookup) (wm : WifiManager) (prev : Nat),
      (wm.wifi_state.status = ConnectStatus.CONNECTED →
        handle_state_change L wm NMDeviceState.DEACTIVATING prev
            NMDeviceStateReason.CONNECTION_REMOVED = clear_state wm) ∧
      (wm.wifi_state.status = ConnectStatus.CONNECTING →
        handle_state_change L wm NMDeviceState.DEACTIVATING prev
            NMDeviceStateReason.CONNECTION_REMOVED = wm) ∧
      (∀ reason, reason ≠ NMDeviceStateReason.CONNECTION_REMOVED →
        handle_state_change L wm NMDeviceState.DEACTIVATING prev reason = wm) := by
  intro L wm prev
  refine ⟨fun h => ?_, fun h => ?_, fun reason h => ?_⟩
  · simp [handle_state_change, handle_deactivating, h]
  · simp [handle_state_change, handle_deactivating, h]
  · simp [handle_state_change, handle_deactivating, h]

/-- Witness for C6: the three branches at concrete managers. -/
theorem deactivating_rule_witness :
    (handle_state_change {}
        { wifi_state := { ssid := some "A", status := ConnectStatus.CONNECTED } }
        NMDeviceState.DEACTIVATING NMDeviceState.ACTIVATED
        NMDeviceStateReason.CONNECTION_REMOVED =
      clear_state { wifi_state := { ssid := some "A", status := ConnectStatus.CONNECTED } }) ∧
    (handle_state_change {}
        { wifi_state := { ssid := some "B", status := ConnectStatus.CONNECTING } }
        NMDeviceState.DEACTIVATING NMDeviceState.CONFIG
        NMDeviceStateReason.CONNECTION_REMOVED =
      { wifi_state := { ssid := some "B", status := ConnectStatus.CONNECTING } }) ∧
    (handle_state_change {}
        { wifi_state := { ssid := some "Net", status := ConnectStatus.CONNECTED } }
        NMDeviceState.DEACTIVATING NMDeviceState.ACTIVATED
        NMDeviceStateReason.USER_REQUESTED =
      { wifi_state := { ssid := some "Net", status := ConnectStatus.CONNECTED } }) :=
  ⟨(deactivating_rule {}
      { wifi_state := { ssid := some "A", status := ConnectStatus.CONNECTED } }
      NMDeviceState.ACTIVATED).1 rfl,
   (deactivating_rule {}
      { wifi_state := { ssid := some "B", status := ConnectStatus.CONNECTING } }
      NMDeviceState.CONFIG).2.1 rfl,
   (deactivating_rule {}
      { wifi_state := { ssid := some "Net", status := ConnectStatus.CONNECTED } }
      NMDeviceState.ACTIVATED).2.2 NMDeviceStateReason.USER_REQUESTED (by decide)⟩

/-- C10: on `FAILED` with reason `SSID_NOT_FOUND` and the ssid set, the
manager is left completely unchanged (no state write, no callback entry);
only `NO_SECRETS` triggers the clear-and-callback path. The state is then
cleared by the subsequent `DISCONNECTED` signal. -/
theorem failed_ssid_not_found_noop :
    ∀ (L : Lookup) (wm : WifiManager) (prev : Nat) (s : String),
      wm.wifi_state.ssid = some s →
      handle_state_change L wm NMDeviceState.FAILED prev
          NMDeviceStateReason.SSID_NOT_FOUND = wm ∧
      (∀ (L2 : Lookup) (prev2 : Nat),
        handle_state_change L2
            (handle_state_change L wm NMDeviceState.FAILED prev
              NMDeviceStateReason.SSID_NOT_FOUND)
            NMDeviceState.DISCONNECTED prev2 NMDeviceStateReason.NONE =
          clear_state wm) := by
  intro L wm prev s h
  have hnoop : handle_state_change L wm NMDeviceState.FAILED prev
      NMDeviceStateReason.SSID_NOT_FOUND = wm := by
    simp [handle_state_change, handle_failed]
  refine ⟨hnoop, fun L2 prev2 => ?_⟩
  rw [hnoop]
  simp [handle_state_change, handle_disconnected]

/-- Witness for C10 at a concrete manager connected to "GoneNet". -/
theorem failed_ssid_not_found_noop_witness :
    handle_state_change {}
        { wifi_state := { ssid := some "GoneNet", status := ConnectStatus.CONNECTING }
          connections := [("GoneNet", "/path/gone")] }
        NMDeviceState.FAILED NMDeviceState.ACTIVATED
        NMDeviceStateReason.SSID_NOT_FOUND =
      { wifi_state := { ssid := some "GoneNet", status := ConnectStatus.CONNECTING }
        connections := [("GoneNet", "/path/gone")] } :=
  (failed_ssid_not_found_noop {}
    { wifi_state := { ssid := some "GoneNet", status := ConnectStatus.CONNECTING }
      connections := [("GoneNet", "/path/gone")] }
    NMDeviceState.ACTIVATED "GoneNet" rfl).1

/-- C2: from any state with ssid `s` set and status CONNECTING, processing
`NEED_AUTH(previous=CONFIG, reason=SUPPLICANT_DISCONNECT)` followed by
`FAILED(previous=NEED_AUTH, reason=NO_SECRETS)` appends in total exactly one
NEED_AUTH callback entry, carrying `s`: the first signal clears the ssid, so
the second enqueues nothing. -/
theorem need_auth_then_failed_single_callback :
    ∀ (L1 L2 : Lookup) (wm : WifiManager) (s : String),
      wm.wifi_state = { ssid := some s, status := ConnectStatus.CONNECTING } →
      (handle_state_change L2
          (handle_state_change L1 wm NMDeviceState.NEED_AUTH NMDeviceState.CONFIG
            NMDeviceStateReason.SUPPLICANT_DISCONNECT)
          NMDeviceState.FAILED NMDeviceState.NEED_AUTH
          NMDeviceStateReason.NO_SECRETS).callback_queue =
        wm.callback_queue ++ [{ kind := CallbackKind.NEED_AUTH, ssid := some s }] := by
  intro L1 L2 wm s h
  simp [handle_state_change, handle_need_auth, handle_failed, h]

/-- Witness for C2 at a concrete manager connecting to "BadPass". -/
theorem need_auth_then_failed_single_callback_witness :
    (handle_state_change {}
        (handle_state_change {}
          { wifi_state := { ssid := some "BadPass", status := ConnectStatus.CONNECTING } }
          NMDeviceState.NEED_AUTH NMDeviceState.CONFIG
          NMDeviceStateReason.SUPPLICANT_DISCONNECT)
        NMDeviceState.FAILED NMDeviceState.NEED_AUTH
        NMDeviceStateReason.NO_SECRETS).callback_queue =
      [{ kind := CallbackKind.NEED_AUTH, ssid := some "BadPass" }] :=
  need_auth_then_failed_single_callback {} {}
    { wifi_state := { ssid := some "BadPass", status := ConnectStatus.CONNECTING } }
    "BadPass" rfl

/-- C5: `NEED_AUTH` sets status DISCONNECTED, enqueues exactly one NEED_AUTH
callback entry carrying the current ssid and clears the ssid, exactly when
`previous = CONFIG`, `reason = SUPPLICANT_DISCONNECT` and the ssid is set
(first two conjuncts: the effect fires under the condition and the handler
is the identity whenever the condition fails); and with
`previous = DISCONNECTED` the signal is always a no-op. -/
theorem need_auth_rule :
    ∀ (L : Lookup) (wm : WifiManager) (prev reason : Nat),
      (∀ s, prev = NMDeviceState.CONFIG →
        reason = NMDeviceStateReason.SUPPLICANT_DISCONNECT →
        wm.wifi_state.ssid = some s →
        handle_state_change L wm NMDeviceState.NEED_AUTH prev reason =
          { wm with
            wifi_state := { ssid := none, status := ConnectStatus.DISCONNECTED }
            callback_queue := wm.callback_queue ++
              [{ kind := CallbackKind.NEED_AUTH, ssid := some s }] }) ∧
      (¬ (prev = NMDeviceState.CONFIG ∧
          reason = NMDeviceStateReason.SUPPLICANT_DISCONNECT ∧
          wm.wifi_state.ssid.isSome) →
        handle_state_change L wm NMDeviceState.NEED_AUTH prev reason = wm) ∧
      (prev = NMDeviceState.DISCONNECTED →
        handle_state_change L wm NMDeviceState.NEED_AUTH prev reason = wm) := by
  intro L wm prev reason
  refine ⟨fun s hp hr hs => ?_, fun h => ?_, fun hp => ?_⟩
  · simp [handle_state_change, handle_need_auth, hp, hr, hs]
  · by_cases hp : prev = NMDeviceState.CONFIG
    · by_cases hr : reason = NMDeviceStateReason.SUPPLICANT_DISCONNECT
      · have hs : wm.wifi_state.ssid = none := by
          cases hss : wm.wifi_state.ssid with
          | none => rfl
          | some s => exact absurd ⟨hp, hr, by simp [hss]⟩ h
        simp [handle_state_change, handle_need_auth, hp, hr, hs]
      · simp [handle_state_change, handle_need_auth, hr]
    · simp [handle_state_change, handle_need_auth, hp]
  · subst hp
    simp [handle_state_change, handle_need_auth]

/-- Witness for C5: the wrong-password branch fires at a concrete manager
connecting to "SecNet", and a stale signal with previous = DISCONNECTED is
a no-op. -/
theorem need_auth_rule_witness :
    (handle_state_change {}
        { wifi_state := { ssid := some "SecNet", status := ConnectStatus.CONNECTING } }
        NMDeviceState.NEED_AUTH NMDeviceState.CONFIG
        NMDeviceStateReason.SUPPLICANT_DISCONNECT =
      { wifi_state := { ssid := none, status := ConnectStatus.DISCONNECTED }
        callback_queue := [{ kind := CallbackKind.NEED_AUTH, ssid := some "SecNet" }] }) ∧
    (handle_state_change {}
        { wifi_state := { ssid := some "B", status := ConnectStatus.CONNECTING } }
        NMDeviceState.NEED_AUTH NMDeviceState.DISCONNECTED
        NMDeviceStateReason.SUPPLICANT_DISCONNECT =
      { wifi_state := { ssid := some "B", status := ConnectStatus.CONNECTING } }) :=
  ⟨(need_auth_rule {}
      { wifi_state := { ssid := some "SecNet", status := ConnectStatus.CONNECTING } }
      NMDeviceState.CONFIG NMDeviceStateReason.SUPPLICANT_DISCONNECT).1
      "SecNet" rfl rfl rfl,
   (need_auth_rule {}
      { wifi_state := { ssid := some "B", status := ConnectStatus.CONNECTING } }
      NMDeviceState.DISCONNECTED NMDeviceStateReason.SUPPLICANT_DISCONNECT).2.2 rfl⟩

/-- C9: the handler is a total function over arbitrary `(state, reason)`
integer codes — it is defined by exhaustive branching, so it always returns
a next manager and never fails — and every combination not matched by a
specific decision-table row lands in the relevant state's otherwise branch:
unlisted or pass-through states are no-ops, DISCONNECTED with an unexpected
reason is a full clear, and DEACTIVATING / NEED_AUTH / FAILED with
unexpected reasons are no-ops. -/
theorem handler_totality_otherwise :
    ∀ (L : Lookup) (wm : WifiManager) (new_state prev reason : Nat),
      (new_state ∉ [NMDeviceState.DISCONNECTED, NMDeviceState.PREPARE,
          NMDeviceState.CONFIG, NMDeviceState.NEED_AUTH, NMDeviceState.ACTIVATED,
          NMDeviceState.DEACTIVATING, NMDeviceState.FAILED] →
        handle_state_change L wm new_state prev reason = wm) ∧
      (reason ≠ NMDeviceStateReason.NEW_ACTIVATION →
        reason ≠ NMDeviceStateReason.CONNECTION_REMOVED →
        handle_state_change L wm NMDeviceState.DISCONNECTED prev reason =
          clear_state wm) ∧
      (reason ≠ NMDeviceStateReason.CONNECTION_REMOVED →
        handle_state_change L wm NMDeviceState.DEACTIVATING prev reason = wm) ∧
      (reason ≠ NMDeviceStateReason.SUPPLICANT_DISCONNECT →
        handle_state_change L wm NMDeviceState.NEED_AUTH prev reason = wm) ∧
      (reason ≠ NMDeviceStateReason.NO_SECRETS →
        handle_state_change L wm NMDeviceState.FAILED prev reason = wm) := by
  intro L wm new_state prev reason
  refine ⟨fun h => ?_, fun h1 h2 => ?_, fun h => ?_, fun h => ?_, fun h => ?_⟩
  · simp only [List.mem_cons, List.not_mem_nil, or_false, not_or] at h
    obtain ⟨d1, d2, d3, d4, d5, d6, d7⟩ := h
    simp [handle_state_change, d1, d2, d3, d4, d5, d6, d7]
  · simp [handle_state_change, handle_disconnected, h1, h2]
  · simp [handle_state_change, handle_deactivating, h]
  · simp [handle_state_change, handle_need_auth, h]
  · simp [handle_state_change, handle_failed, h]

/-- Witness for C9: a malformed state code (7) and malformed reason codes
(999) at a concrete connected manager. -/
theorem handler_totality_otherwise_witness :
    (handle_state_change {}
        { wifi_state := { ssid := some "Net", status := ConnectStatus.CONNECTED } }
        7 NMDeviceState.UNKNOWN 999 =
      { wifi_state := { ssid := some "Net", status := ConnectStatus.CONNECTED } }) ∧
    (handle_state_change {}
        { wifi_state := { ssid := some "Net", status := ConnectStatus.CONNECTED } }
        NMDeviceState.DISCONNECTED NMDeviceState.UNKNOWN 999 =
      clear_state
        { wifi_state := { ssid := some "Net", status := ConnectStatus.CONNECTED } }) ∧
    (handle_state_change {}
        { wifi_state := { ssid := some "Net", status := ConnectStatus.CONNECTED } }
        NMDeviceState.FAILED NMDeviceState.UNKNOWN 999 =
      { wifi_state := { ssid := some "Net", status := ConnectStatus.CONNECTED } }) :=
  ⟨(handler_totality_otherwise {}
      { wifi_state := { ssid := some "Net", status := ConnectStatus.CONNECTED } }
      7 NMDeviceState.UNKNOWN 999).1 (by decide),
   (handler_totality_otherwise {}
      { wifi_state := { ssid := some "Net", status := ConnectStatus.CONNECTED } }
      NMDeviceState.DISCONNECTED NMDeviceState.UNKNOWN 999).2.1
      (by decide) (by decide),
   (handler_totality_otherwise {}
      { wifi_state := { ssid := some "Net", status := ConnectStatus.CONNECTED } }
      NMDeviceState.FAILED NMDeviceState.UNKNOWN 999).2.2.2.2 (by decide)⟩

/-- C7: on `ACTIVATED`, when no user action lands during the epoch-tagged
lookup, the resulting status is CONNECTED; the ssid is kept if already set,
otherwise resolved from the lookup (set when the returned path is a known
connection, `none` when the path is unknown, and unchanged when the lookup
returns no path); the persistence collaborator is invoked exactly once; and
exactly one ACTIVATED callback entry is enqueued. -/
theorem activated_rule :
    ∀ (L : Lookup) (wm : WifiManager) (prev reason : Nat),
      L.interleaved = [] →
      handle_state_change L wm NMDeviceState.ACTIVATED prev reason =
        { wm with
          wifi_state :=
            { ssid := match wm.wifi_state.ssid with
                | some s => some s
                | none => L.result.bind (find_ssid_for_path wm.connections)
              status := ConnectStatus.CONNECTED }
          lookup_calls := wm.lookup_calls + 1
          persist_calls := wm.persist_calls + 1
          callback_queue := wm.callback_queue ++
            [{ kind := CallbackKind.ACTIVATED,
               ssid := match wm.wifi_state.ssid with
                 | some s => some s
                 | none => L.result.bind (find_ssid_for_path wm.connections) }] } := by
  intro L wm prev reason h
  cases hss : wm.wifi_state.ssid <;>
    simp [handle_state_change, handle_activated, run_lookup, h, hss]

/-- Witness for C7 at a concrete manager connecting to "MyNet" whose lookup
resolves to the stored path of "MyNet". -/
theorem activated_rule_witness :
    handle_state_change { result := some "/path/mynet" }
        { wifi_state := { ssid := none, status := ConnectStatus.CONNECTING }
          connections := [("MyNet", "/path/mynet")] }
        NMDeviceState.ACTIVATED NMDeviceState.SECONDARIES NMDeviceStateReason.NONE =
      { wifi_state := { ssid := some "MyNet", status := ConnectStatus.CONNECTED }
        connections := [("MyNet", "/path/mynet")]
        lookup_calls := 1
        persist_calls := 1
        callback_queue := [{ kind := CallbackKind.ACTIVATED, ssid := some "MyNet" }] } := by
  have h := activated_rule { result := some "/path/mynet" }
    { wifi_state := { ssid := none, status := ConnectStatus.CONNECTING }
      connections := [("MyNet", "/path/mynet")] }
    NMDeviceState.SECONDARIES NMDeviceStateReason.NONE rfl
  rw [h]
  decide

/-- C1: for every disambiguation lookup during which a `set_connecting s'`
lands (modelled as a nonempty interleaving ending in `s'`), the captured
epoch no longer matches at application time, so the lookup result is
discarded entirely and Wifi State afterwards is
`{ssid := s', status := CONNECTING}` — exactly what `set_connecting` wrote.
This holds for the lookup issued by the PREPARE handler, the CONFIG
handler, the ACTIVATED handler, and the worker-error re-sync
(`init_wifi_state`). -/
theorem epoch_discard_preserves_set_connecting :
    ∀ (wm : WifiManager) (L : Lookup) (l : List String) (s' : String)
      (prev reason : Nat),
      L.interleaved = l ++ [s'] →
      (wm.wifi_state.ssid = none →
        (handle_state_change L wm NMDeviceState.PREPARE prev reason).wifi_state =
            { ssid := some s', status := ConnectStatus.CONNECTING } ∧
        (handle_state_change L wm NMDeviceState.CONFIG prev reason).wifi_state =
            { ssid := some s', status := ConnectStatus.CONNECTING }) ∧
      (handle_state_change L wm NMDeviceState.ACTIVATED prev reason).wifi_state =
          { ssid := some s', status := ConnectStatus.CONNECTING } ∧
      (∀ R : Resync, R.lookup = L →
        (init_wifi_state R wm).wifi_state =
          { ssid := some s', status := ConnectStatus.CONNECTING }) := by
  intro wm L l s' prev reason h
  have hne : ∀ wm0 : WifiManager,
      ¬ (set_connecting (List.foldl set_connecting wm0 l) s').user_epoch =
          wm0.user_epoch := by
    intro wm0
    simp only [set_connecting, foldl_set_connecting_epoch]
    omega
  refine ⟨fun hss => ⟨?_, ?_⟩, ?_, fun R hR => ?_⟩
  · simp [handle_state_change, handle_prepare_config, run_lookup, h, hss, hne wm]
    simp [set_connecting]
  · simp [handle_state_change, handle_prepare_config, run_lookup, h, hss, hne wm]
    simp [set_connecting]
  · simp [handle_state_change, handle_activated, run_lookup, h, hne wm]
    simp [set_connecting]
  · have hne2 :
        ¬ (set_connecting
              (List.foldl set_connecting
                (List.foldl set_connecting wm R.state_interleaved) l)
              s').user_epoch = wm.user_epoch := by
      simp only [set_connecting, foldl_set_connecting_epoch]
      omega
    simp [init_wifi_state, run_lookup, hR, h, hne2]
    simp [set_connecting]

/-- Witness for C1: the user taps "B" while the auto-connect PREPARE lookup
for "A" is in flight; the stale result is discarded and the state stays
`{ssid := "B", status := CONNECTING}`. -/
theorem epoch_discard_preserves_set_connecting_witness :
    (handle_state_change { interleaved := ["B"], result := some "/path/A" }
        { connections := [("A", "/path/A"), ("B", "/path/B")] }
        NMDeviceState.PREPARE NMDeviceState.UNKNOWN NMDeviceStateReason.NONE).wifi_state =
      { ssid := some "B", status := ConnectStatus.CONNECTING } :=
  ((epoch_discard_preserves_set_connecting
    { connections := [("A", "/path/A"), ("B", "/path/B")] }
    { interleaved := ["B"], result := some "/path/A" }
    [] "B" NMDeviceState.UNKNOWN NMDeviceStateReason.NONE rfl).1 rfl).1

/-- C8: when `activate_connection` or `connect_to_network` receives a
transport-level error reply, the operation re-reads ground truth — one
device-state read and one active-connection lookup, visible as exactly one
more counted lookup call — and overwrites Wifi State with whatever is
discovered (absent a concurrent user action). In the concrete conjunct, a
previously connected network "A" remains `{ssid := "A", status :=
CONNECTED}` after a failed request for "B": the error is not handled by
clearing Wifi State to DISCONNECTED. -/
theorem worker_error_resync :
    (∀ (R : Resync) (ssid password : String) (wm : WifiManager),
      R.state_interleaved = [] → R.lookup.interleaved = [] →
      (activate_connection true R ssid wm).wifi_state =
          { ssid := R.lookup.result.bind (find_ssid_for_path wm.connections)
            status := status_from_device_state R.device_state } ∧
      (connect_to_network true R ssid password wm).wifi_state =
          { ssid := R.lookup.result.bind (find_ssid_for_path wm.connections)
            status := status_from_device_state R.device_state } ∧
      (activate_connection true R ssid wm).lookup_calls = wm.lookup_calls + 1) ∧
    (activate_connection true
        { device_state := NMDeviceState.ACTIVATED
          lookup := { result := some "/path/A" } }
        "B"
        { wifi_state := { ssid := some "A", status := ConnectStatus.CONNECTED }
          connections := [("A", "/path/A"), ("B", "/path/B")] }).wifi_state =
      { ssid := some "A", status := ConnectStatus.CONNECTED } := by
  constructor
  · intro R ssid password wm h1 h2
    refine ⟨?_, ?_, ?_⟩ <;>
      simp [activate_connection, connect_to_network, init_wifi_state,
        run_lookup, set_connecting, h1, h2]
  · decide

/-- Witness for C8: the universally quantified part applied to a concrete
failed request for "B" while "A" is connected, with the re-sync discovering
device state ACTIVATED and "A" as the active connection. -/
theorem worker_error_resync_witness :
    (connect_to_network true
        { device_state := NMDeviceState.ACTIVATED
          lookup := { result := some "/path/A" } }
        "B" "password123"
        { wifi_state := { ssid := some "A", status := ConnectStatus.CONNECTED }
          connections := [("A", "/path/A"), ("B", "/path/B")] }).wifi_state =
      { ssid := some "A", status := ConnectStatus.CONNECTED } := by
  have h := (worker_error_resync.1
    { device_state := NMDeviceState.ACTIVATED
      lookup := { result := some "/path/A" } }
    "B" "password123"
    { wifi_state := { ssid := some "A", status := ConnectStatus.CONNECTED }
      connections := [("A", "/path/A"), ("B", "/path/B")] }
    rfl rfl).2.1
  rw [h]
  decide
